import Mathlib

set_option maxHeartbeats 1000000

namespace FilterTrail

/-!
# FilterTrail — verification of the core algorithms

Shallow embedding of the core algorithms of the FilterTrail repository
(`src/main.py`): the row-count reconciler, the filter diff engine and its
display-label selection, the event-log store (load / save / reset), the
Sankey flow-graph builder, and the rename (relabel) propagator.

Conventions used throughout:

* Machine integers (row counts, estimates) are embedded as `Nat`; Python
  integers are unbounded so no modular wrap is needed.
* The two floating-point comparisons in the source,
  `min_count < max(visible_rows) * 0.8` and
  `abs(last - current) > total_rows * 0.001`, are embedded as the exact
  rational comparisons `5 * min < 4 * max` and `1000 * d > total`.  For the
  integer magnitudes a spreadsheet can produce (far below `2^50`) the IEEE
  double evaluation of these expressions decides exactly the same
  predicate, because an integer operand is at least `1/5` (resp. `1/1000`)
  away from the threshold whenever the exact comparison is strict.
* Python dicts are embedded as association lists; dict equality is the
  key-set/value equality `filterMapEq` below.
* Reads of live Excel state (COM calls) are modelled as explicit
  parameters of the functions that consume them.
-/

/-! ## Data model -/

/-- One entry of an event's `added_filters` / `removed_filters` list:
`{"column": ..., "values": [...], "column_index": ...}` as built at
`src/main.py` lines 424-457. -/
structure FilterEntry where
  column : String
  values : List String
  column_index : Nat
deriving DecidableEq

/-- One event of the filter history, with the fields written at
`src/main.py` lines 211-221, 315-326 and 591-602. -/
structure FilterEvent where
  timestamp : String
  action : String
  added_filters : List FilterEntry
  removed_filters : List FilterEntry
  previous_row_count : Nat
  current_row_count : Nat
  total_rows : Nat
  filter_column : String
  filter_columns : List String
  active_filters : List String
deriving DecidableEq

/-- An arbitrary concrete event used in witnesses and counterexamples. -/
def sampleEvent : FilterEvent :=
  { timestamp := "t"
    action := "filter_change"
    added_filters := []
    removed_filters := []
    previous_row_count := 100
    current_row_count := 40
    total_rows := 100
    filter_column := "Region"
    filter_columns := ["Region"]
    active_filters := ["Region"] }

/-- The value of one column's filter predicate as `get_current_filters`
builds it (`src/main.py` lines 891-895, 911-915):
`{"values": [...], "column_index": ..., "last_detected": time.time()}`.
The `last_detected` read timestamp is opaque to the diff logic — it is
only ever compared for equality, as part of the whole-dict comparison at
line 392 — so it is embedded as an abstract `Nat` tick value.  Two live
reads of the same filter carry different timestamps. -/
structure FilterPred where
  values : List String
  column_index : Nat
  last_detected : Nat
deriving DecidableEq

/-- The filter state of one snapshot: Python dict from column display name
to predicate, embedded as an association list in dict insertion order. -/
abbrev FilterMap := List (String × FilterPred)

/-- Dict lookup: first entry with the given key. -/
def lookupPred : FilterMap → String → Option FilterPred
  | [], _ => none
  | (c, p) :: rest, k => if c = k then some p else lookupPred rest k

/-- Python dict equality (`current_filters != last_filter_state`,
`src/main.py` line 392): same keys and the same value at every key;
insertion order is irrelevant.  The per-key values are whole predicate
dicts, so the comparison includes the `last_detected` timestamps: two
reads of an identical live filter state taken at different instants
compare unequal. -/
def filterMapEq (a b : FilterMap) : Bool :=
  (a.all fun p => decide (lookupPred b p.1 = some p.2)) &&
    (b.all fun p => decide (lookupPred a p.1 = some p.2))

/-! ## Row count reconciler (src/main.py lines 352-385, same logic at 247-279)

The monitoring loop collects one estimate per measurement method that
returned a positive value (`visible_rows`), then reconciles them.  When no
method produced a value the loop does NOT reuse `last_row_count`: it calls
`self.get_visible_row_count()` (line 385), a further chain of the same
measurement methods; that external read is the `lastResortCount`
parameter.  (In the pre-loop copy of the same logic, line 279, the
fallback is `total_rows` instead.) -/

/-- Python `min(list)` for a non-empty list (`0` on `[]`, unreachable). -/
def listMin : List Nat → Nat
  | [] => 0
  | x :: xs => xs.foldl min x

/-- Python `max(list)` for a non-empty list (`0` on `[]`, unreachable). -/
def listMax : List Nat → Nat
  | [] => 0
  | x :: xs => xs.foldl max x

/-- `visible_rows.sort()`: ascending sort. -/
def sortedAsc (l : List Nat) : List Nat := List.insertionSort (· ≤ ·) l

/-- `visible_rows[len(visible_rows)//2]` after the ascending in-place sort
(`src/main.py` lines 378-379). -/
def medianEstimate (l : List Nat) : Nat := (sortedAsc l).getD (l.length / 2) 0

/-- The reconciler of `src/main.py` lines 370-385.  `lastRowCount` is the
previously reconciled count (in scope in the loop but not consulted here);
`lastResortCount` is the result of the `get_visible_row_count()` call made
when `visible_rows` is empty.  The float test
`min_count < max(visible_rows) * 0.8` is the exact `5 * min < 4 * max`. -/
def reconcileRowCount (estimates : List Nat) (lastRowCount lastResortCount : Nat) : Nat :=
  if estimates = [] then lastResortCount
  else if 3 ≤ estimates.length ∧ 5 * listMin estimates < 4 * listMax estimates then
    medianEstimate estimates
  else
    listMin estimates

/-! ### Helper lemmas on listMin / listMax -/

/-! ## Filter diff engine (src/main.py lines 390-614)

One tick of the monitoring loop after the row count has been reconciled:
decide whether anything changed, compute `added_filters` /
`removed_filters` / `filter_columns`, select the display label, build the
event, and apply the significance gate.  Live Excel reads inside the tick
are parameters:

* `refreshedCount` — the `get_direct_visible_count()` re-read of lines
  396-401 (`none` when the call raised);
* `scanCols` / `scanAdded` — the columns and filter entries contributed by
  the AutoFilter scan of lines 466-528 (runs only when the row count
  changed without a detected filter-state change);
* `hasActiveFilter` — the `has_active_filter` flag set by that same scan;
* `liveCols` — the active columns found by the AutoFilter walk of lines
  548-570 (runs only when the filter state changed), appended to
  `filter_columns` with duplicates skipped. -/

/-- `added_filters` (src/main.py lines 414-439): every column of `current`
that is absent from `last` or whose `values` differ (the `column_index` is
not compared here), in `current`'s iteration order. -/
def computeAdded (lastState curState : FilterMap) : List FilterEntry :=
  curState.filterMap fun p =>
    match lookupPred lastState p.1 with
    | none => some ⟨p.1, p.2.values, p.2.column_index⟩
    | some q =>
      if p.2.values ≠ q.values then some ⟨p.1, p.2.values, p.2.column_index⟩ else none

/-- `removed_filters` (src/main.py lines 442-457): every column of `last`
absent from `current`, in `last`'s iteration order. -/
def computeRemoved (lastState curState : FilterMap) : List FilterEntry :=
  lastState.filterMap fun p =>
    if (lookupPred curState p.1).isNone then some ⟨p.1, p.2.values, p.2.column_index⟩
    else none

/-- Append each element of `extra` that is not already present
(src/main.py lines 565-566: `if col_name not in filter_columns`). -/
def appendNew (cols extra : List String) : List String :=
  extra.foldl (fun acc c => if c ∈ acc then acc else acc ++ [c]) cols

/-- `row_count_changed` (src/main.py line 391). -/
def rowCountChanged (lastRow curRow : Nat) : Bool :=
  decide (2 < ((curRow : Int) - (lastRow : Int)).natAbs)

/-- `filter_state_changed` (src/main.py line 392): Python dict
inequality. -/
def filterStateChanged (lastState curState : FilterMap) : Bool :=
  ! filterMapEq curState lastState

/-- The display-label selection of src/main.py lines 544-584.  The first
three rules (lines 573-580) are an if/elif/elif chain, but the
`"No Filters"` rule (lines 582-584) is a separate `if` executed afterwards
that overwrites whatever the chain chose. -/
def displayFilterColumn (added removed : List FilterEntry)
    (rowChanged stateChanged curEmpty : Bool) : String :=
  let base :=
    match added with
    | f :: _ => f.column
    | [] =>
      match removed with
      | f :: _ => "Remove " ++ f.column
      | [] =>
        if rowChanged && !stateChanged then "Row Count Change" else "Filter Change"
  if curEmpty && rowChanged then "No Filters" else base

/-- One tick of the change detector (src/main.py lines 390-614): `some e`
when the tick appends event `e` to the history, `none` when it appends
nothing. -/
def diffTick (lastState curState : FilterMap) (lastRow curRow totalRows : Nat)
    (refreshedCount : Option Nat) (scanCols : List String) (scanAdded : List FilterEntry)
    (hasActiveFilter : Bool) (liveCols : List String) (timestamp : String) :
    Option FilterEvent :=
  let rowChanged := rowCountChanged lastRow curRow
  let stateChanged := filterStateChanged lastState curState
  if rowChanged || stateChanged then
    -- lines 396-401: one more direct read, used only when positive
    let curRow2 :=
      match refreshedCount with
      | some n => if 0 < n then n else curRow
      | none => curRow
    -- lines 413-458: the dict diff, only when the state changed
    let added1 := if stateChanged then computeAdded lastState curState else []
    let removed := if stateChanged then computeRemoved lastState curState else []
    let cols1 :=
      if stateChanged then
        added1.map (·.column) ++ removed.map (fun f => "Remove " ++ f.column)
      else []
    -- lines 466-535: AutoFilter scan when rows changed but no diff was seen
    let scanActive := rowChanged && !stateChanged
    let added := if scanActive then added1 ++ scanAdded else added1
    let cols2 := if scanActive then cols1 ++ scanCols else cols1
    let cols3 :=
      if scanActive && cols2.isEmpty && (hasActiveFilter || !curState.isEmpty) then
        cols2 ++ curState.map (·.1)
      else cols2
    -- lines 538-539
    let cols4 :=
      if cols3.isEmpty && rowChanged then cols3 ++ ["Row Count Change"] else cols3
    -- lines 548-570: live AutoFilter walk when the state changed
    let cols5 := if stateChanged then appendNew cols4 liveCols else cols4
    -- lines 544-584
    let display := displayFilterColumn added removed rowChanged stateChanged curState.isEmpty
    -- lines 591-602
    let event : FilterEvent :=
      { timestamp := timestamp
        action := "filter_change"
        added_filters := added
        removed_filters := removed
        previous_row_count := lastRow
        current_row_count := curRow2
        total_rows := totalRows
        filter_column := display
        filter_columns := cols5
        active_filters := curState.map (·.1) }
    -- lines 611-614: significance gate; `abs(last - current) > total * 0.001`
    -- is embedded as the exact `1000 * d > total`
    if !added.isEmpty || !removed.isEmpty ||
        1000 * ((curRow2 : Int) - (lastRow : Int)).natAbs > totalRows then
      some event
    else none
  else none

/-- The claimed priority order, stated as the spec writes it: (1) first
added column; else (2) `"Remove "` + first removed column; else (3)
`"Row Count Change"` when the row count changed and the filter state did
not; else (4) `"No Filters"` when the current map is empty and the row
count changed; else (5) `"Filter Change"`. -/
def displayFilterColumnClaimed (added removed : List FilterEntry)
    (rowChanged stateChanged curEmpty : Bool) : String :=
  match added with
  | f :: _ => f.column
  | [] =>
    match removed with
    | f :: _ => "Remove " ++ f.column
    | [] =>
      if rowChanged && !stateChanged then "Row Count Change"
      else if curEmpty && rowChanged then "No Filters"
      else "Filter Change"

/-- The actual selection order: the `"No Filters"` rule is applied last
and overrides rules (1)-(3) whenever the current map is empty and the row
count changed; otherwise the chain (1), (2), (3), (5) applies. -/
def displayFilterColumnAmended (added removed : List FilterEntry)
    (rowChanged stateChanged curEmpty : Bool) : String :=
  if curEmpty && rowChanged then "No Filters"
  else
    match added with
    | f :: _ => f.column
    | [] =>
      match removed with
      | f :: _ => "Remove " ++ f.column
      | [] =>
        if rowChanged && !stateChanged then "Row Count Change" else "Filter Change"

/-! ## Event log store

### Load with fallback (src/main.py lines 1032-1066, same shape at 119-148)

`load_filter_history` tries the primary file; the backup file is read only
from inside the `except` handler, i.e. only when the primary file exists,
is non-empty and `json.load` raised.  A missing or empty primary (line
1049), or a primary that parses to a non-list (line 1039), yields the
empty history without ever touching the backup.  The backup read has no
list check: a backup that parses to a non-list is stored as-is. -/

/-- The state of one persisted file as the loader sees it. -/
inductive FileState where
  /-- The file does not exist, or exists with size 0 (`json.load` on an
  empty file raises, so for the backup this also covers the empty file). -/
  | absentOrEmpty : FileState
  /-- The file exists and is non-empty but `json.load` raises. -/
  | unparsable : FileState
  /-- `json.load` succeeds but the value is not a list. -/
  | notAList : FileState
  /-- `json.load` succeeds with a list of events. -/
  | eventList (es : List FilterEvent) : FileState
deriving DecidableEq

/-- What `self.filter_history` holds after the load. -/
inductive LoadResult where
  /-- A list of events. -/
  | history (es : List FilterEvent) : LoadResult
  /-- A non-list JSON value (possible only via the uncheck­ed backup read). -/
  | nonList : LoadResult
deriving DecidableEq

/-- `FilterVisualizer.load_filter_history` (src/main.py lines 1032-1066).
`backup = none` means the backup file does not exist (the
`os.path.exists` test at line 1060). -/
def load_filter_history (primary : FileState) (backup : Option FileState) : LoadResult :=
  match primary with
  | .eventList es => .history es
  | .absentOrEmpty => .history []
  | .notAList => .history []
  | .unparsable =>
    match backup with
    | some (.eventList es) => .history es
    | some .notAList => .nonList
    | some .unparsable => .history []
    | some .absentOrEmpty => .history []
    | none => .history []

/-! ### History cap and save (src/main.py lines 119-132 and 999-1014)

The monitor's load keeps only the last 100 entries in memory
(`loaded_history[-max_history_length:]`, lines 126-132), and
`save_filter_history` (lines 999-1014) rewrites the whole file from the
in-memory list on every save. -/

/-- The in-memory history after the monitor's load of a parsed file
(src/main.py lines 126-132): the last 100 entries. -/
def loadWithCap (file : List FilterEvent) : List FilterEvent :=
  if file.length > 100 then file.drop (file.length - 100) else file

/-- `save_filter_history` (src/main.py lines 1002-1003): the persisted
file after a successful save is exactly the in-memory list. -/
def saveToFile (mem : List FilterEvent) : List FilterEvent := mem

/-- `reset_data` (src/main.py lines 2548-2553) and `reset_filter_data`
(src/reset_data.py): both persisted locations become the empty list. -/
def resetFile : List FilterEvent := []

/-! ## The total_rows invariant (src/main.py lines 159-207 and 591-602)

At the start of a monitoring session the code scans the loaded history for
the first event whose `total_rows` is positive (lines 162-165); if one is
found, its value becomes the session's `total_rows` (lines 205-206),
otherwise a freshly measured count is used (lines 183-200).  The session
constant `total_rows` is never reassigned inside the loop, and every event
the session appends (lines 211-221, 315-326, 591-602) carries it. -/

/-- The scan of src/main.py lines 162-165: the `total_rows` of the first
event with a positive `total_rows`, `0` when there is none. -/
def firstPositiveTotal : List FilterEvent → Nat
  | [] => 0
  | e :: es => if 0 < e.total_rows then e.total_rows else firstPositiveTotal es

/-- The session's `total_rows` (src/main.py lines 183-207): the history's
first positive value when one exists, else the freshly measured count. -/
def sessionTotal (loaded : List FilterEvent) (measured : Nat) : Nat :=
  if 0 < firstPositiveTotal loaded then firstPositiveTotal loaded else measured

/-- The invariant: once an event with a positive `total_rows` appears,
every later event carries that same value. -/
def totalRowsInvariant (log : List FilterEvent) : Prop :=
  log.Pairwise fun a b => 0 < a.total_rows → b.total_rows = a.total_rows

/-! ## Flow graph builder (src/main.py lines 1228-1399)

`create_sankey_diagram` returns an annotation-only figure with no Sankey
trace when the history is empty (lines 1232-1242), and otherwise builds
node and link lists.  Node and link labels are float-formatted display
strings (`f"{filter_col} ({row_count:,}, {percentage:.1f}%)"` etc.); the
embedding keeps the `filter_col` part of the node label and the
structural fields, and embeds the float band tests on exact rationals:
`current/total > 0.7` as `10 * current > 7 * total`, `> 0.3` as
`10 * current > 3 * total`, and `reduction = 1 - flow/prev > 0.7` as
`10 * flow < 3 * prev` (similarly `> 0.4`, `> 0.1`). -/

/-- One Sankey node: the `filter_col` part of its label and its color. -/
structure SankeyNode where
  label : String
  color : String
deriving DecidableEq

/-- One Sankey link, as pushed onto `links_source` / `links_target` /
`links_value` / `links_color` (src/main.py lines 1313-1369). -/
structure SankeyLink where
  source : Nat
  target : Nat
  value : Nat
  color : String
deriving DecidableEq

/-- The structural content of the Sankey figure (src/main.py 1374-1390). -/
structure SankeyGraph where
  nodes : List SankeyNode
  links : List SankeyLink
deriving DecidableEq

/-- `total_rows` for the node-color bands (src/main.py lines 1248-1250):
the first event's `total_rows`, replaced by 1 when not positive. -/
def sankeyTotalRows : List FilterEvent → Nat
  | [] => 1
  | e :: _ => max 1 e.total_rows

/-- The node label's `filter_col` part (src/main.py lines 1270-1280):
the event's `filter_column` when non-empty, else the first added column,
else `"Remove "` + the first removed column, else `"Step i+1"`. -/
def sankeyNodeLabel (i : Nat) (e : FilterEvent) : String :=
  if e.filter_column ≠ "" then e.filter_column
  else
    match e.added_filters with
    | f :: _ => f.column
    | [] =>
      match e.removed_filters with
      | f :: _ => "Remove " ++ f.column
      | [] => "Step " ++ toString (i + 1)

/-- Node color (src/main.py lines 1304-1311): three bands of
`current_row_count / total_rows`. -/
def sankeyNodeColor (totalRows0 : Nat) (e : FilterEvent) : String :=
  if 10 * e.current_row_count > 7 * totalRows0 then "rgba(50, 150, 50, 0.8)"
  else if 10 * e.current_row_count > 3 * totalRows0 then "rgba(200, 150, 0, 0.8)"
  else "rgba(200, 50, 50, 0.8)"

/-- Link color (src/main.py lines 1355-1369): four severity bands of
`reduction = 1 - flow_value / previous_row_count`, grey when the previous
count is 0. -/
def sankeyLinkColor (e : FilterEvent) : String :=
  let flow := max 1 e.current_row_count
  let prev := e.previous_row_count
  if 0 < prev then
    if 10 * flow < 3 * prev then "rgba(255, 0, 0, 0.6)"
    else if 10 * flow < 6 * prev then "rgba(255, 165, 0, 0.6)"
    else if 10 * flow < 9 * prev then "rgba(255, 255, 0, 0.6)"
    else "rgba(0, 128, 0, 0.6)"
  else "rgba(100, 100, 100, 0.6)"

/-- The link pushed for event `i` (0-based; src/main.py lines 1313-1319):
source `i if i > 0 else 0`, target `i+1`,
value `max(1, current_row_count)`. -/
def sankeyLinkOf (i : Nat) (e : FilterEvent) : SankeyLink :=
  { source := if 0 < i then i else 0
    target := i + 1
    value := max 1 e.current_row_count
    color := sankeyLinkColor e }

/-- The node and link lists built by the loop of src/main.py lines
1252-1319: the synthetic `"All Data"` origin followed by one node and one
link per event. -/
def sankeyGraphOf (history : List FilterEvent) : SankeyGraph :=
  let totalRows0 := sankeyTotalRows history
  { nodes :=
      ⟨"All Data", "rgba(31, 119, 180, 0.8)"⟩ ::
        history.enum.map fun p => ⟨sankeyNodeLabel p.1 p.2, sankeyNodeColor totalRows0 p.2⟩
    links := history.enum.map fun p => sankeyLinkOf p.1 p.2 }

/-- `create_sankey_diagram` (src/main.py lines 1228-1399): `none` models
the annotation-only figure returned for an empty history, which carries
no Sankey trace at all. -/
def createSankeyDiagram (history : List FilterEvent) : Option SankeyGraph :=
  if history.isEmpty then none else some (sankeyGraphOf history)

/-- A placeholder link for the `getD` access in statements. -/
def defaultLink : SankeyLink := { source := 0, target := 0, value := 0, color := "" }

/-! ## Relabel propagator (src/main.py lines 2109-2205)

`on_filter_column_edited(event_index, new_name)` resolves the target
event's current `filter_column` as `original_name`, returns unchanged
when the event index is out of range, when either name is empty, or when
`original_name` is one of the protected labels, and otherwise rewrites
`original_name → new_name` in the event's `filter_column`,
`filter_columns`, `added_filters`/`removed_filters` column fields, and in
every header-cache entry whose value is `original_name`.  The
monitor/visualizer double bookkeeping of lines 2168-2194 keeps two copies
of the same log in sync; the embedding models the single logical log. -/

/-- The header cache `self.header_names`: column index → display name. -/
abbrev HeaderCache := List (Nat × String)

/-- The rewritten event (src/main.py lines 2146-2160). -/
def renameInEvent (e : FilterEvent) (orig newName : String) : FilterEvent :=
  { e with
    filter_column := newName
    filter_columns := e.filter_columns.map fun c => if c = orig then newName else c
    added_filters :=
      e.added_filters.map fun f => if f.column = orig then { f with column := newName } else f
    removed_filters :=
      e.removed_filters.map fun f => if f.column = orig then { f with column := newName } else f }

/-- The rewritten header cache (src/main.py lines 2162-2166). -/
def renameInHeaders (headers : HeaderCache) (orig newName : String) : HeaderCache :=
  headers.map fun p => if p.2 = orig then (p.1, newName) else p

/-- `on_filter_column_edited` (src/main.py lines 2109-2205) on the single
logical log: unchanged state when the index is out of range, a name is
empty, or the current label is protected; otherwise the rewrite. -/
def renameFilterColumn (history : List FilterEvent) (headers : HeaderCache)
    (idx : Nat) (newName : String) : List FilterEvent × HeaderCache :=
  match history.get? idx with
  | none => (history, headers)
  | some e =>
    let orig := e.filter_column
    if orig = "" ∨ newName = "" then (history, headers)
    else if orig = "All Data" ∨ orig = "Initial State" then (history, headers)
    else (history.set idx (renameInEvent e orig newName), renameInHeaders headers orig newName)

/-! ## Theorems -/

theorem foldl_min_cases (xs : List Nat) (a : Nat) :
    xs.foldl min a = a ∨ xs.foldl min a ∈ xs := by
  induction xs generalizing a with
  | nil => exact Or.inl rfl
  | cons y ys ih =>
    rcases ih (min a y) with h | h
    · rw [List.foldl_cons, h]
      rcases min_choice a y with h2 | h2
      · exact Or.inl h2
      · refine Or.inr ?_
        rw [h2]
        exact List.mem_cons_self y ys
    · exact Or.inr (List.mem_cons_of_mem y h)

theorem listMin_mem (l : List Nat) (h : l ≠ []) : listMin l ∈ l := by
  match l, h with
  | x :: xs, _ =>
    show xs.foldl min x ∈ x :: xs
    rcases foldl_min_cases xs x with h2 | h2
    · rw [h2]
      exact List.mem_cons_self x xs
    · exact List.mem_cons_of_mem x h2

/-- C1: for a non-empty estimate sequence, the reconciler returns the
(documented-convention) median when at least 3 estimates exist and the
minimum is strictly below 0.8 times the maximum, and otherwise returns the
minimum of the sequence, which is an element of the sequence. -/
theorem reconciler_branch_spec (estimates : List Nat) (lastRowCount lastResortCount : Nat)
    (hne : estimates ≠ []) :
    (3 ≤ estimates.length ∧ 5 * listMin estimates < 4 * listMax estimates →
      reconcileRowCount estimates lastRowCount lastResortCount = medianEstimate estimates) ∧
    (¬(3 ≤ estimates.length ∧ 5 * listMin estimates < 4 * listMax estimates) →
      reconcileRowCount estimates lastRowCount lastResortCount = listMin estimates ∧
        reconcileRowCount estimates lastRowCount lastResortCount ∈ estimates) := by
  constructor
  · intro h
    rw [reconcileRowCount, if_neg hne, if_pos h]
  · intro h
    rw [reconcileRowCount, if_neg hne, if_neg h]
    exact ⟨rfl, listMin_mem estimates hne⟩

/-- Witness for `reconciler_branch_spec` at `[40, 42, 41]` (the spec's own
low-disagreement scenario): the reconciled count is the minimum, 40. -/
theorem reconciler_branch_spec_witness :
    ¬(3 ≤ ([40, 42, 41] : List Nat).length ∧
        5 * listMin [40, 42, 41] < 4 * listMax [40, 42, 41]) ∧
      reconcileRowCount [40, 42, 41] 0 0 = listMin [40, 42, 41] ∧
      reconcileRowCount [40, 42, 41] 0 0 ∈ [40, 42, 41] :=
  ⟨by decide,
    (reconciler_branch_spec [40, 42, 41] 0 0 (by decide)).2 (by decide)⟩

/-- C10: in the median branch (at least 3 estimates, minimum strictly
below 0.8 of the maximum) the reconciler returns the element at index
`⌊n/2⌋` of the ascending-sorted estimate sequence: the middle element for
odd `n`, the upper median for even `n`. -/
theorem reconciler_median_is_upper_median (estimates l : List Nat)
    (lastRowCount lastResortCount : Nat)
    (h3 : 3 ≤ estimates.length)
    (hdis : 5 * listMin estimates < 4 * listMax estimates)
    (hperm : l.Perm estimates) (hsort : l.Sorted (· ≤ ·)) :
    reconcileRowCount estimates lastRowCount lastResortCount =
      l.getD (estimates.length / 2) 0 := by
  have hl : l = sortedAsc estimates :=
    List.eq_of_perm_of_sorted
      (hperm.trans (List.perm_insertionSort (· ≤ ·) estimates).symm)
      hsort (List.sorted_insertionSort (· ≤ ·) estimates)
  have hne : estimates ≠ [] := by
    intro hnil
    rw [hnil] at h3
    exact absurd h3 (by decide)
  rw [hl, reconcileRowCount, if_neg hne, if_pos ⟨h3, hdis⟩]
  rfl

/-- Witness for `reconciler_median_is_upper_median` at `[10, 50, 52]` (the
spec's own high-disagreement scenario): the reconciled count is the sorted
middle element, 50. -/
theorem reconciler_median_is_upper_median_witness :
    reconcileRowCount [10, 50, 52] 0 0 =
      List.getD [10, 50, 52] (([10, 50, 52] : List Nat).length / 2) 0 :=
  reconciler_median_is_upper_median [10, 50, 52] [10, 50, 52] 0 0
    (by decide) (by decide) (by decide) (by decide)

/-- C2 counterexample: C2 fails on the code: with an empty estimate sequence, previously
reconciled count 10 and a last-resort measurement returning 7, the
reconciled count is 7 — the fallback measurement — not the previous 10. -/
theorem empty_estimates_not_carry_forward :
    reconcileRowCount [] 10 7 = 7 ∧ reconcileRowCount [] 10 7 ≠ 10 := by
  exact ⟨rfl, by decide⟩

/-- C2 (amended): when the estimate sequence is empty the reconciled count
is whatever the last-resort `get_visible_row_count()` call returns,
independent of the previously reconciled count (which is never consulted). -/
theorem empty_estimates_last_resort (lastRowCount lastResortCount : Nat) :
    reconcileRowCount [] lastRowCount lastResortCount = lastResortCount := rfl

/-- C4 (amended): when the previous and current filter maps are equal as
complete dicts — including the `last_detected` read timestamps that
`get_current_filters` stamps into every predicate — and the row counts
differ by at most 2, the tick appends no event, whatever the live Excel
reads returned.  (Maps that agree only up to the detection timestamps do
not qualify: see the counterexample.) -/
theorem no_event_when_unchanged (lastState curState : FilterMap)
    (lastRow curRow totalRows : Nat) (refreshedCount : Option Nat)
    (scanCols : List String) (scanAdded : List FilterEntry)
    (hasActiveFilter : Bool) (liveCols : List String) (timestamp : String)
    (hEq : filterMapEq curState lastState = true)
    (hRow : ((curRow : Int) - (lastRow : Int)).natAbs ≤ 2) :
    diffTick lastState curState lastRow curRow totalRows refreshedCount
      scanCols scanAdded hasActiveFilter liveCols timestamp = none := by
  have h1 : rowCountChanged lastRow curRow = false := by
    simp [rowCountChanged, Nat.not_lt.mpr hRow]
  have h2 : filterStateChanged lastState curState = false := by
    simp [filterStateChanged, hEq]
  simp [diffTick, h1, h2]

/-- Witness for `no_event_when_unchanged`: one-column filter maps equal
including the detection timestamp, row counts 40 and 42: no event. -/
theorem no_event_when_unchanged_witness :
    diffTick [("Region", ⟨["East"], 1, 100⟩)] [("Region", ⟨["East"], 1, 100⟩)] 40 42 100
      (some 41) [] [] false [] "t" = none :=
  no_event_when_unchanged [("Region", ⟨["East"], 1, 100⟩)] [("Region", ⟨["East"], 1, 100⟩)]
    40 42 100 (some 41) [] [] false [] "t" (by decide) (by decide)

/-- C4 counterexample: C4 fails on the code.  The predicate dicts carry a
`last_detected` read timestamp (src/main.py lines 891-895), so two live
reads of the same filter state — equal in values and column index, shown
by the first conjunct — compare unequal at line 392.  With row counts 40
and 42 (difference 2, within the claimed jitter tolerance) the tick then
enters the change branch with empty `added_filters`/`removed_filters`,
and the significance gate `abs(40 - 42) > 100 * 0.001` passes: an event
labeled `"Filter Change"` is appended where the claim requires none. -/
theorem timestamp_only_change_appends_event :
    (([("Region", ⟨["East"], 1, 100⟩)] : FilterMap).map fun p =>
        (p.1, p.2.values, p.2.column_index)) =
      (([("Region", ⟨["East"], 1, 101⟩)] : FilterMap).map fun p =>
        (p.1, p.2.values, p.2.column_index)) ∧
      ((42 : Int) - (40 : Int)).natAbs ≤ 2 ∧
      diffTick [("Region", ⟨["East"], 1, 100⟩)] [("Region", ⟨["East"], 1, 101⟩)]
          40 42 100 none [] [] false [] "t" =
        some { timestamp := "t"
               action := "filter_change"
               added_filters := []
               removed_filters := []
               previous_row_count := 40
               current_row_count := 42
               total_rows := 100
               filter_column := "Filter Change"
               filter_columns := []
               active_filters := ["Region"] } := by
  refine ⟨rfl, by decide, ?_⟩
  rfl

/-- C3 counterexample: C3 fails on the code.  Removing the last active
filter (previous map `{Region: {values: [East], column_index: 1}}`,
current map empty, rows 40 → 100) appends an event whose `filter_column`
is `"No Filters"`, not the `"Remove Region"` that the claimed priority
order (rule 2 before rule 4) requires: the `"No Filters"` rule is a
separate final `if` that overwrites the chain's choice. -/
theorem display_column_priority_counterexample :
    (diffTick [("Region", ⟨["East"], 1, 100⟩)] [] 40 100 100 none [] [] false [] "t").map
        FilterEvent.filter_column = some "No Filters" ∧
      displayFilterColumn [] [⟨"Region", ["East"], 1⟩] true true true = "No Filters" ∧
      "No Filters" ≠ "Remove Region" := by
  refine ⟨?_, rfl, by decide⟩
  rfl

/-- C3 (amended): the display label equals the claimed five-rule selection
with the `"No Filters"` rule moved to highest priority: `"No Filters"`
whenever the current filter map is empty and the row count changed, and
otherwise the chain (1) first added column, (2) `"Remove "` + first
removed column, (3) `"Row Count Change"`, (5) `"Filter Change"`. -/
theorem display_column_selection (added removed : List FilterEntry)
    (rowChanged stateChanged curEmpty : Bool) :
    displayFilterColumn added removed rowChanged stateChanged curEmpty =
      displayFilterColumnAmended added removed rowChanged stateChanged curEmpty := by
  cases added <;> cases removed <;> cases rowChanged <;> cases stateChanged <;>
    cases curEmpty <;> simp [displayFilterColumn, displayFilterColumnAmended]

/-- C5 counterexample: C5 fails on the code.  With the primary log file
missing (or empty) and a valid non-empty backup available, `load()`
returns the empty history instead of falling back to the backup: the
backup is consulted only when reading the primary raises a parse error. -/
theorem load_no_fallback_when_primary_missing :
    load_filter_history .absentOrEmpty (some (.eventList [sampleEvent])) =
        .history [] ∧
      ([] : List FilterEvent) ≠ [sampleEvent] := by
  exact ⟨rfl, by simp⟩

/-- C5 (amended): `load()` falls back to the backup only when the primary
exists, is non-empty and fails to parse; a missing or empty primary, or a
primary that parses to a non-list, yields the empty history regardless of
the backup; and when the fallback path runs, the result is empty exactly
when the backup is missing, empty or unparsable (a parsed backup is used
without a list check). -/
theorem load_fallback_behaviour (es : List FilterEvent) (backup : Option FileState) :
    load_filter_history (.eventList es) backup = .history es ∧
      load_filter_history .absentOrEmpty backup = .history [] ∧
      load_filter_history .notAList backup = .history [] ∧
      load_filter_history .unparsable (some (.eventList es)) = .history es ∧
      load_filter_history .unparsable (some .notAList) = .nonList ∧
      load_filter_history .unparsable (some .unparsable) = .history [] ∧
      load_filter_history .unparsable (some .absentOrEmpty) = .history [] ∧
      load_filter_history .unparsable none = .history [] := by
  refine ⟨rfl, ?_, ?_, rfl, rfl, rfl, rfl, rfl⟩ <;> rfl

/-- C9 counterexample: C9 fails on the code.  For a persisted log of 101
events, the monitor's load keeps only the last 100 in memory, and the
very next save rewrites the file from memory: the persisted file shrinks
from 101 to 100 events with no reset involved. -/
theorem load_then_save_truncates_file :
    saveToFile (loadWithCap (List.replicate 101 sampleEvent)) ≠
        List.replicate 101 sampleEvent ∧
      (saveToFile (loadWithCap (List.replicate 101 sampleEvent))).length = 100 ∧
      (List.replicate 101 sampleEvent).length = 101 := by
  refine ⟨?_, ?_, by simp⟩
  · intro h
    have := congrArg List.length h
    simp [saveToFile, loadWithCap] at this
  · simp [saveToFile, loadWithCap]

/-- C9 (amended): the load-time cap is applied to the in-memory list, and
because every save rewrites the file from memory, loading a file of more
than 100 events and then saving truncates the persisted file to the 100
most recent events; a file of at most 100 events round-trips unchanged,
and an explicit reset persists the empty list. -/
theorem load_save_truncation (file : List FilterEvent) :
    (file.length ≤ 100 → saveToFile (loadWithCap file) = file) ∧
      (100 < file.length →
        saveToFile (loadWithCap file) = file.drop (file.length - 100) ∧
          (saveToFile (loadWithCap file)).length = 100) ∧
      resetFile = [] := by
  refine ⟨?_, ?_, rfl⟩
  · intro h
    simp [saveToFile, loadWithCap, Nat.not_lt.mpr h]
  · intro h
    refine ⟨by simp [saveToFile, loadWithCap, h], ?_⟩
    simp [saveToFile, loadWithCap, h]
    omega

/-- Witness for `load_save_truncation` at a two-event file: it
round-trips unchanged. -/
theorem load_save_truncation_witness :
    saveToFile (loadWithCap [sampleEvent, sampleEvent]) = [sampleEvent, sampleEvent] :=
  (load_save_truncation [sampleEvent, sampleEvent]).1 (by decide)

theorem firstPositiveTotal_eq_of_mem (log : List FilterEvent)
    (hinv : totalRowsInvariant log) (e : FilterEvent) (he : e ∈ log)
    (hpos : 0 < e.total_rows) : firstPositiveTotal log = e.total_rows := by
  induction log with
  | nil => cases he
  | cons a es ih =>
    simp only [totalRowsInvariant, List.pairwise_cons] at hinv
    rcases List.mem_cons.mp he with rfl | he2
    · rw [firstPositiveTotal, if_pos hpos]
    · by_cases ha : 0 < a.total_rows
      · rw [firstPositiveTotal, if_pos ha]
        exact (hinv.1 e he2 ha).symm
      · rw [firstPositiveTotal, if_neg ha]
        exact ih hinv.2 he2

/-- C6: `total_rows` is set once and propagated.  If the persisted log
satisfies the invariant (every event from the first positive-`total_rows`
event onward carries that same value), then after a session loads any
suffix of it (the load cap keeps a suffix), computes its `total_rows` and
appends events all carrying that session constant, the combined log still
satisfies the invariant — and when the loaded history already had a
positive value, every appended event carries exactly that value, so a
reconnect re-establishes the same `total_rows`. -/
theorem total_rows_established_once (file newEvents : List FilterEvent)
    (k measured : Nat)
    (hfile : totalRowsInvariant file)
    (hnew : ∀ e ∈ newEvents, e.total_rows = sessionTotal (file.drop k) measured) :
    totalRowsInvariant (file.drop k ++ newEvents) ∧
      (0 < firstPositiveTotal (file.drop k) →
        ∀ e ∈ newEvents, e.total_rows = firstPositiveTotal (file.drop k)) := by
  have hloaded : totalRowsInvariant (file.drop k) :=
    List.Pairwise.sublist (List.drop_sublist k file) hfile
  constructor
  · rw [totalRowsInvariant, List.pairwise_append]
    refine ⟨hloaded, ?_, ?_⟩
    · refine List.pairwise_of_forall_mem_list ?_
      intro a ha b hb _
      rw [hnew b hb, hnew a ha]
    · intro a ha b hb hpos
      rw [hnew b hb, sessionTotal,
        if_pos (firstPositiveTotal_eq_of_mem (file.drop k) hloaded a ha hpos ▸ hpos),
        firstPositiveTotal_eq_of_mem (file.drop k) hloaded a ha hpos]
  · intro hpos e he
    rw [hnew e he, sessionTotal, if_pos hpos]

/-- Witness for `total_rows_established_once`: a one-event file with
`total_rows = 100` and one appended event carrying the session constant. -/
theorem total_rows_established_once_witness :
    totalRowsInvariant ((List.drop 0 [sampleEvent]) ++ [sampleEvent]) ∧
      (0 < firstPositiveTotal (List.drop 0 [sampleEvent]) →
        ∀ e ∈ [sampleEvent],
          e.total_rows = firstPositiveTotal (List.drop 0 [sampleEvent])) :=
  total_rows_established_once [sampleEvent] [sampleEvent] 0 7
    (by simp [totalRowsInvariant])
    (by
      intro e he
      simp only [List.mem_singleton] at he
      subst he
      rfl)

/-- C7 (amended): for every non-empty event log the builder produces a
graph with exactly `event count + 1` nodes, the extra first one being the
synthetic `"All Data"` origin; exactly `event count` links; and the link
for (0-based) event `i` runs from node `i` to node `i + 1` with value
`max 1 current_row_count`, hence at least 1.  (The empty log produces no
flow graph at all: see the counterexample.) -/
theorem sankey_graph_shape (history : List FilterEvent) (hne : history ≠ []) :
    createSankeyDiagram history = some (sankeyGraphOf history) ∧
      (sankeyGraphOf history).nodes.length = history.length + 1 ∧
      (sankeyGraphOf history).nodes.head?.map SankeyNode.label = some "All Data" ∧
      (sankeyGraphOf history).links.length = history.length ∧
      ∀ i (hi : i < history.length),
        ((sankeyGraphOf history).links.getD i defaultLink).source = i ∧
          ((sankeyGraphOf history).links.getD i defaultLink).target = i + 1 ∧
          ((sankeyGraphOf history).links.getD i defaultLink).value =
            max 1 (history.get ⟨i, hi⟩).current_row_count ∧
          1 ≤ ((sankeyGraphOf history).links.getD i defaultLink).value := by
  refine ⟨?_, ?_, ?_, ?_, ?_⟩
  · rw [createSankeyDiagram, if_neg (by simpa using hne)]
  · simp [sankeyGraphOf, List.enum_length]
  · simp [sankeyGraphOf]
  · simp [sankeyGraphOf, List.enum_length]
  · intro i hi
    have hlen : i < ((sankeyGraphOf history).links).length := by
      simp [sankeyGraphOf, List.enum_length]
      exact hi
    have hget : (sankeyGraphOf history).links.getD i defaultLink =
        sankeyLinkOf i (history.get ⟨i, hi⟩) := by
      rw [List.getD_eq_getElem _ _ hlen]
      simp only [sankeyGraphOf]
      rw [List.getElem_map, List.getElem_enum]
      rfl
    rw [hget]
    refine ⟨?_, rfl, rfl, ?_⟩
    · rcases Nat.eq_zero_or_pos i with rfl | hip
      · rfl
      · simp [sankeyLinkOf, hip]
    · exact Nat.le_max_left 1 _

/-- Witness for `sankey_graph_shape` at the one-event log
`[sampleEvent]`. -/
theorem sankey_graph_shape_witness :
    createSankeyDiagram [sampleEvent] = some (sankeyGraphOf [sampleEvent]) ∧
      (sankeyGraphOf [sampleEvent]).nodes.length = 2 ∧
      (sankeyGraphOf [sampleEvent]).nodes.head?.map SankeyNode.label = some "All Data" ∧
      (sankeyGraphOf [sampleEvent]).links.length = 1 ∧
      ∀ i (hi : i < ([sampleEvent] : List FilterEvent).length),
        ((sankeyGraphOf [sampleEvent]).links.getD i defaultLink).source = i ∧
          ((sankeyGraphOf [sampleEvent]).links.getD i defaultLink).target = i + 1 ∧
          ((sankeyGraphOf [sampleEvent]).links.getD i defaultLink).value =
            max 1 (([sampleEvent] : List FilterEvent).get ⟨i, hi⟩).current_row_count ∧
          1 ≤ ((sankeyGraphOf [sampleEvent]).links.getD i defaultLink).value :=
  sankey_graph_shape [sampleEvent] (by simp)

/-- C7 counterexample: C7 fails on the code at the empty event log.  The
claim quantifies over every event log and requires `event count + 1`
nodes, but for an empty history `create_sankey_diagram` (src/main.py
lines 1232-1242) returns an annotation-only figure with no Sankey trace —
no nodes at all, not the required one synthetic `"All Data"` origin. -/
theorem sankey_empty_log_no_graph :
    createSankeyDiagram [] = none ∧
      (createSankeyDiagram []).map (fun g => g.nodes.length) ≠
        some (([] : List FilterEvent).length + 1) := by
  exact ⟨rfl, by simp [createSankeyDiagram]⟩

theorem map_rename_self (newName : String) (l : List String) :
    (l.map fun c => if c = newName then newName else c) = l := by
  induction l with
  | nil => rfl
  | cons c cs ih =>
    rw [List.map_cons, ih]
    congr 1
    split <;> simp_all

theorem map_rename_entry_self (newName : String) (l : List FilterEntry) :
    (l.map fun f => if f.column = newName then { f with column := newName } else f) = l := by
  induction l with
  | nil => rfl
  | cons f fs ih =>
    rw [List.map_cons, ih]
    congr 1
    split
    · cases f
      simp_all
    · rfl

theorem renameInEvent_self (e : FilterEvent) (newName : String)
    (he : e.filter_column = newName) : renameInEvent e newName newName = e := by
  cases e
  simp_all [renameInEvent, map_rename_self, map_rename_entry_self]

theorem renameInHeaders_self (headers : HeaderCache) (newName : String) :
    renameInHeaders headers newName newName = headers := by
  rw [renameInHeaders]
  induction headers with
  | nil => rfl
  | cons p ps ih =>
    rw [List.map_cons, ih]
    congr 1
    split
    · cases p
      simp_all
    · rfl

/-- C8: renaming the event at a valid index from its current non-empty,
non-protected label to a non-empty `newName` rewrites the old name to the
new one in the event's `filter_column`, in every matching entry of its
`filter_columns`, in every matching `column` of its `added_filters` and
`removed_filters`, and in every header-cache entry equal to the old name;
other events are untouched; and repeating the rename with the same
`newName` changes nothing. -/
theorem rename_propagates_and_idempotent (history : List FilterEvent)
    (headers : HeaderCache) (idx : Nat) (newName : String) (e : FilterEvent)
    (hidx : history.get? idx = some e)
    (horig : e.filter_column ≠ "" ∧ e.filter_column ≠ "All Data" ∧
      e.filter_column ≠ "Initial State")
    (hnew : newName ≠ "") :
    (renameFilterColumn history headers idx newName).1 =
        history.set idx (renameInEvent e e.filter_column newName) ∧
      (renameInEvent e e.filter_column newName).filter_column = newName ∧
      (renameInEvent e e.filter_column newName).filter_columns =
        (e.filter_columns.map fun c => if c = e.filter_column then newName else c) ∧
      (renameInEvent e e.filter_column newName).added_filters =
        (e.added_filters.map fun f =>
          if f.column = e.filter_column then { f with column := newName } else f) ∧
      (renameInEvent e e.filter_column newName).removed_filters =
        (e.removed_filters.map fun f =>
          if f.column = e.filter_column then { f with column := newName } else f) ∧
      (renameFilterColumn history headers idx newName).2 =
        (headers.map fun p => if p.2 = e.filter_column then (p.1, newName) else p) ∧
      (∀ j, j ≠ idx →
        (renameFilterColumn history headers idx newName).1.get? j = history.get? j) ∧
      renameFilterColumn (renameFilterColumn history headers idx newName).1
          (renameFilterColumn history headers idx newName).2 idx newName =
        renameFilterColumn history headers idx newName := by
  obtain ⟨h1, h2, h3⟩ := horig
  have hstep : renameFilterColumn history headers idx newName =
      (history.set idx (renameInEvent e e.filter_column newName),
        renameInHeaders headers e.filter_column newName) := by
    simp only [renameFilterColumn, hidx]
    rw [if_neg (by simp [h1, hnew]), if_neg (by simp [h2, h3])]
  refine ⟨by rw [hstep], rfl, rfl, rfl, rfl, by rw [hstep]; rfl, ?_, ?_⟩
  · intro j hj
    rw [hstep]
    simp only [List.get?_eq_getElem?]
    exact List.getElem?_set_ne fun h => hj h.symm
  · rw [hstep]
    have hlt : idx < history.length := (List.get?_eq_some.mp hidx).1
    have hget2 : (history.set idx (renameInEvent e e.filter_column newName)).get? idx =
        some (renameInEvent e e.filter_column newName) := by
      rw [List.get?_eq_getElem?]
      exact List.getElem?_set_self (by simpa using hlt)
    simp only [renameFilterColumn, hget2]
    have hcol : (renameInEvent e e.filter_column newName).filter_column = newName := rfl
    rw [hcol, if_neg (by simp [hnew])]
    by_cases hprot : newName = "All Data" ∨ newName = "Initial State"
    · rw [if_pos hprot]
    · rw [if_neg hprot,
        renameInEvent_self (renameInEvent e e.filter_column newName) newName hcol,
        renameInHeaders_self, List.set_set]

/-- Witness for `rename_propagates_and_idempotent`: renaming the single
event's `"Region"` label to `"Area"` at index 0 with header cache
`[(1, "Region")]`. -/
theorem rename_propagates_and_idempotent_witness :
    (renameFilterColumn [sampleEvent] [(1, "Region")] 0 "Area").1 =
        [sampleEvent].set 0 (renameInEvent sampleEvent sampleEvent.filter_column "Area") ∧
      (renameInEvent sampleEvent sampleEvent.filter_column "Area").filter_column = "Area" ∧
      (renameInEvent sampleEvent sampleEvent.filter_column "Area").filter_columns =
        (sampleEvent.filter_columns.map fun c =>
          if c = sampleEvent.filter_column then "Area" else c) ∧
      (renameInEvent sampleEvent sampleEvent.filter_column "Area").added_filters =
        (sampleEvent.added_filters.map fun f =>
          if f.column = sampleEvent.filter_column then { f with column := "Area" } else f) ∧
      (renameInEvent sampleEvent sampleEvent.filter_column "Area").removed_filters =
        (sampleEvent.removed_filters.map fun f =>
          if f.column = sampleEvent.filter_column then { f with column := "Area" } else f) ∧
      (renameFilterColumn [sampleEvent] [(1, "Region")] 0 "Area").2 =
        ([(1, "Region")].map fun p : Nat × String =>
          if p.2 = sampleEvent.filter_column then (p.1, "Area") else p) ∧
      (∀ j, j ≠ 0 →
        (renameFilterColumn [sampleEvent] [(1, "Region")] 0 "Area").1.get? j =
          ([sampleEvent] : List FilterEvent).get? j) ∧
      renameFilterColumn (renameFilterColumn [sampleEvent] [(1, "Region")] 0 "Area").1
          (renameFilterColumn [sampleEvent] [(1, "Region")] 0 "Area").2 0 "Area" =
        renameFilterColumn [sampleEvent] [(1, "Region")] 0 "Area" :=
  rename_propagates_and_idempotent [sampleEvent] [(1, "Region")] 0 "Area" sampleEvent
    rfl (by refine ⟨?_, ?_, ?_⟩ <;> simp [sampleEvent]) (by simp)

end FilterTrail
